import Mathlib

/-!
# Verification of the react-url-query-parameter-store core

Shallow embedding of `src/query-parameter-store.ts` (the `QueryParamStore`
class): query mappings are association lists from string keys to JS values,
the Zod schema and the Next.js router are modelled as external collaborators
(a validation function, and a record of pathname/query plus an explicit
navigation outcome), and each store method becomes a pure function from the
store state and its environment to a result record describing the resolved
boolean, the navigation call issued (if any), the new store state, whether
subscribers were notified, and whether a console diagnostic was emitted.
-/

set_option autoImplicit false

namespace QPStore

/-- JavaScript primitive values that can sit inside a query-value array.
URL query values are strings or string arrays; schema-validated data can also
hold numbers and booleans (e.g. from coercing schemas). -/
inductive JSPrim where
  | str (s : String)
  | num (n : Int)
  | bool (b : Bool)
  | null
  | undef
deriving DecidableEq, Repr

/-- JavaScript values as they appear in query mappings and validated data:
primitives plus one level of arrays (the shapes relevant to this store). -/
inductive JSVal where
  | undef
  | null
  | str (s : String)
  | num (n : Int)
  | bool (b : Bool)
  | arr (elems : List JSPrim)
deriving DecidableEq, Repr

/-- A JS object used as a query mapping / parsed data: an association list
from string keys to values.  Objects coming from the router or built by the
store have pairwise-distinct keys (JS object semantics); where a proof needs
that fact it is an explicit hypothesis. -/
abbrev Obj := List (String × JSVal)

namespace Obj

/-- Property access `obj[key]` for a key known to be present, `none` when
absent (the first binding wins, matching JS objects with distinct keys). -/
def lookupKey : Obj → String → Option JSVal
  | [], _ => none
  | (k, v) :: rest, key => if k = key then some v else lookupKey rest key

/-- `Object.prototype.hasOwnProperty.call(obj, key)`. -/
def hasKey (obj : Obj) (key : String) : Bool :=
  (lookupKey obj key).isSome

/-- The JS spread merge `{ ...a, ...b }`: every key of `b` takes `b`'s value,
remaining keys of `a` keep `a`'s value. -/
def merge (a b : Obj) : Obj :=
  a.filter (fun p => !(hasKey b p.1)) ++ b

/-- `Object.keys`. -/
def keys (obj : Obj) : List String :=
  obj.map Prod.fst

end Obj

theorem Obj.lookupKey_append (a b : Obj) (k : String) :
    Obj.lookupKey (a ++ b) k =
      match Obj.lookupKey a k with
      | some v => some v
      | none => Obj.lookupKey b k := by
  induction a with
  | nil => rfl
  | cons p rest ih =>
    by_cases h : p.1 = k
    · simp [Obj.lookupKey, h]
    · simpa [Obj.lookupKey, h] using ih

theorem Obj.lookupKey_filter_keyPred (p : String → Bool) (a : Obj) (k : String) :
    Obj.lookupKey (a.filter (fun q => p q.1)) k =
      if p k then Obj.lookupKey a k else none := by
  induction a with
  | nil => simp [Obj.lookupKey]
  | cons q rest ih =>
    by_cases hk : q.1 = k
    · by_cases hp : p q.1
      · simp [List.filter, hp, Obj.lookupKey, hk, hk ▸ hp]
      · rw [hk] at hp
        simp only [List.filter]
        rw [hk]
        simp [hp, ih, Obj.lookupKey]
    · by_cases hp : p q.1
      · simp only [List.filter, hp]
        simpa [Obj.lookupKey, hk] using ih
      · simpa [List.filter, hp, Obj.lookupKey, hk] using ih

theorem Obj.hasKey_filter_keyPred (p : String → Bool) (a : Obj) (k : String) :
    Obj.hasKey (a.filter (fun q => p q.1)) k = (p k && Obj.hasKey a k) := by
  by_cases hp : p k <;> simp [Obj.hasKey, Obj.lookupKey_filter_keyPred, hp]

theorem Obj.lookupKey_merge (a b : Obj) (k : String) :
    Obj.lookupKey (Obj.merge a b) k =
      if Obj.hasKey b k then Obj.lookupKey b k else Obj.lookupKey a k := by
  unfold Obj.merge
  rw [Obj.lookupKey_append, Obj.lookupKey_filter_keyPred (fun x => !(Obj.hasKey b x)) a k]
  by_cases hb : Obj.hasKey b k
  · simp only [hb, Bool.not_true, if_false, if_true]
    cases h : Obj.lookupKey b k with
    | some v => rfl
    | none => simp [Obj.hasKey, h] at hb
  · have hnone : Obj.lookupKey b k = none := by
      cases h : Obj.lookupKey b k with
      | some v => simp [Obj.hasKey, h] at hb
      | none => rfl
    simp only [hb, Bool.not_false, if_true, if_false, hnone]
    cases Obj.lookupKey a k <;> rfl

theorem Obj.hasKey_merge (a b : Obj) (k : String) :
    Obj.hasKey (Obj.merge a b) k = (Obj.hasKey a k || Obj.hasKey b k) := by
  by_cases hb : Obj.hasKey b k <;>
    simp [Obj.hasKey, Obj.lookupKey_merge, hb] <;>
    simp [Obj.hasKey] at hb <;> simp [hb]

/-- The emptiness test of `filterEmptyValues`:
`value === undefined || value === null || value === '' ||
 (Array.isArray(value) && value.length === 0)`. -/
def isEmptyVal : JSVal → Bool
  | .undef => true
  | .null => true
  | .str s => s = ""
  | .arr elems => elems.isEmpty
  | _ => false

/-- `filterEmptyValues` (source lines 103-116): rebuild the object keeping
only the entries whose value is not empty. -/
def filterEmptyValues (obj : Obj) : Obj :=
  obj.filter (fun p => !(isEmptyVal p.2))

theorem Obj.lookupKey_eq_none_iff (a : Obj) (k : String) :
    Obj.lookupKey a k = none ↔ k ∉ Obj.keys a := by
  induction a with
  | nil => simp [Obj.lookupKey, Obj.keys]
  | cons p rest ih =>
    obtain ⟨k', v'⟩ := p
    simp only [Obj.keys, List.map_cons, List.mem_cons]
    by_cases h : k' = k
    · subst h
      simp [Obj.lookupKey]
    · simp only [Obj.lookupKey, h, if_false]
      rw [ih]
      simp only [Obj.keys]
      constructor
      · intro hnot hor
        rcases hor with rfl | hmem
        · exact h rfl
        · exact hnot hmem
      · intro hnot hmem
        exact hnot (Or.inr hmem)

theorem lookupKey_filter_valPred (p : JSVal → Bool) (m : Obj)
    (hm : (Obj.keys m).Nodup) (k : String) :
    Obj.lookupKey (m.filter (fun q => p q.2)) k =
      match Obj.lookupKey m k with
      | some v => if p v then some v else none
      | none => none := by
  induction m with
  | nil => rfl
  | cons q rest ih =>
    obtain ⟨k', v'⟩ := q
    simp only [Obj.keys, List.map_cons, List.nodup_cons] at hm
    have hm1 : k' ∉ Obj.keys rest := hm.1
    have hm2 : (Obj.keys rest).Nodup := hm.2
    by_cases hpv : p v'
    · simp only [List.filter_cons, hpv, if_true]
      by_cases hk : k' = k
      · subst hk
        simp [Obj.lookupKey, hpv]
      · simp only [Obj.lookupKey, hk, if_false]
        exact ih hm2
    · simp only [List.filter_cons, hpv, if_false, Bool.false_eq_true]
      by_cases hk : k' = k
      · subst hk
        have hrest : Obj.lookupKey rest k' = none :=
          (Obj.lookupKey_eq_none_iff rest k').mpr hm1
        rw [ih hm2, hrest]
        simp [Obj.lookupKey, hpv]
      · simp only [Obj.lookupKey, hk, if_false]
        exact ih hm2

theorem filterEmptyValues_lookupKey (m : Obj) (hm : (Obj.keys m).Nodup)
    (k : String) :
    Obj.lookupKey (filterEmptyValues m) k =
      match Obj.lookupKey m k with
      | some v => if isEmptyVal v then none else some v
      | none => none := by
  have h := lookupKey_filter_valPred (fun v => !(isEmptyVal v)) m hm k
  unfold filterEmptyValues
  rw [h]
  cases Obj.lookupKey m k with
  | none => rfl
  | some v => by_cases he : isEmptyVal v <;> simp [he]

/-- Keys of a merge of two objects with pairwise-distinct keys are again
pairwise distinct. -/
theorem keys_merge_nodup (a b : Obj) (ha : (Obj.keys a).Nodup)
    (hb : (Obj.keys b).Nodup) : (Obj.keys (Obj.merge a b)).Nodup := by
  unfold Obj.merge
  simp only [Obj.keys, List.map_append]
  apply List.Nodup.append
  · exact ((List.filter_sublist a).map Prod.fst).nodup ha
  · exact hb
  · intro k hk1 hk2
    simp only [List.mem_map] at hk1
    obtain ⟨p, hp, rfl⟩ := hk1
    have hmem := List.of_mem_filter hp
    simp only [Bool.not_eq_true'] at hmem
    have hnone : Obj.lookupKey b p.1 = none := by
      cases h : Obj.lookupKey b p.1 with
      | none => rfl
      | some v => simp [Obj.hasKey, h] at hmem
    exact ((Obj.lookupKey_eq_none_iff b p.1).mp hnone) hk2

/-- Filtering an object by a key predicate preserves distinctness of keys. -/
theorem keys_filter_nodup (p : (String × JSVal) → Bool) (a : Obj)
    (ha : (Obj.keys a).Nodup) : (Obj.keys (a.filter p)).Nodup :=
  ((List.filter_sublist a).map Prod.fst).nodup ha

/-- Boolean substring test on lists (model of JS `String.prototype.includes`
applied to the character lists). -/
def listIsSubseg (pat : List Char) : List Char → Bool
  | [] => pat.isEmpty
  | c :: rest => pat.isPrefixOf (c :: rest) || listIsSubseg pat rest

/-- `haystack.includes(needle)` on strings. -/
def strIncludes (haystack needle : String) : Bool :=
  listIsSubseg needle.toList haystack.toList

/-- Deep equality of two query mappings, modelling lodash `isEqual` on plain
objects: the same keys with (deeply) equal values.  Stated as pointwise
lookup agreement over the union of the key sets. -/
def objEq (a b : Obj) : Bool :=
  (Obj.keys a ++ Obj.keys b).all (fun k => Obj.lookupKey a k == Obj.lookupKey b k)

/-- The Next.js router surface the store reads: `Router.pathname` and
`Router.query`. -/
structure RouterState where
  pathname : String
  query : Obj
deriving DecidableEq, Repr

/-- The Zod schema collaborator: `safeParse` returns the validated data on
success and `none` on failure, and `shape` models the optional `shape`
property of object schemas (`'shape' in this.schema`), as the list of
declared keys. -/
structure Schema where
  safeParse : Obj → Option Obj
  shape : Option (List String)

/-- `SetRouterQueryParamsOptions`: store-wide router options.  Each field is
an `Option`, `none` standing for a JS property that is absent/undefined. -/
structure SetRouterQueryParamsOptions where
  shallow : Option Bool := none
  locale : Option String := none
  scroll : Option Bool := none
  replace : Option Bool := none
  logErrorsToConsole : Option Bool := none
  keepEmptyParameters : Option Bool := none
deriving DecidableEq, Repr

/-- `SetQueryParamOptions`: per-call options extending the router options
with `pathname` and `resetToDefaults`. -/
structure SetQueryParamOptions extends SetRouterQueryParamsOptions where
  pathname : Option String := none
  resetToDefaults : Option Bool := none
deriving DecidableEq, Repr

/-- The JS spread `{ ...routerOptions, ...options }` used by
`clearQueryParams` when delegating to `setQueryParams`: a per-call field
wins whenever it is present. -/
def mergeOptions (storeOpts : SetRouterQueryParamsOptions)
    (opts : SetQueryParamOptions) : SetQueryParamOptions :=
  { shallow := opts.shallow <|> storeOpts.shallow
    locale := opts.locale <|> storeOpts.locale
    scroll := opts.scroll <|> storeOpts.scroll
    replace := opts.replace <|> storeOpts.replace
    logErrorsToConsole := opts.logErrorsToConsole <|> storeOpts.logErrorsToConsole
    keepEmptyParameters := opts.keepEmptyParameters <|> storeOpts.keepEmptyParameters
    pathname := opts.pathname
    resetToDefaults := opts.resetToDefaults }

/-- `pick({ shallow: true, ...this.routerOptions, ...options },
['shallow', 'locale', 'scroll'])`: the navigation options handed to the
router, with per-call options over store options over the default
`shallow: true`. -/
structure NavOptions where
  shallow : Bool
  locale : Option String
  scroll : Option Bool
deriving DecidableEq, Repr

def pickNavOptions (storeOpts : SetRouterQueryParamsOptions)
    (opts : SetQueryParamOptions) : NavOptions :=
  { shallow := ((opts.shallow <|> storeOpts.shallow).getD true)
    locale := opts.locale <|> storeOpts.locale
    scroll := opts.scroll <|> storeOpts.scroll }

/-- A navigation request handed to `Router.push` / `Router.replace`. -/
structure NavCall where
  pathname : String
  query : Obj
  replaceMode : Bool
  navOptions : NavOptions
deriving DecidableEq, Repr

/-- Outcome of the navigation promise: fulfilled with a boolean, or
rejected. -/
inductive NavResult where
  | ok (success : Bool)
  | err
deriving DecidableEq, Repr

/-- The store's private mutable state (`this.state`). -/
structure StoreState where
  snapshot : Option Obj
  previousQuery : Obj
  isInitialized : Bool
  initialQuery : Obj
deriving DecidableEq, Repr

/-- The initial value of `this.state`. -/
def initialStoreState : StoreState :=
  { snapshot := none, previousQuery := [], isInitialized := false, initialQuery := [] }

/-- `parseQuery` (source lines 78-96): validate against the schema, fall back
to schema defaults (validating `{}`), and finally to an empty object. -/
def parseQuery (schema : Schema) (query : Obj) : Obj :=
  match schema.safeParse query with
  | some parsed => parsed
  | none =>
    match schema.safeParse [] with
    | some defaultValue => defaultValue
    | none => []

/-- Whether `parseQuery` emits its `console.error` diagnostic:
only on validation failure and only when `routerOptions.logErrorsToConsole`
is truthy. -/
def parseQueryLogs (storeOpts : SetRouterQueryParamsOptions) (schema : Schema)
    (query : Obj) : Bool :=
  (schema.safeParse query).isNone && storeOpts.logErrorsToConsole.getD false

/-- `extractDynamicParams` (source lines 123-133): the keys of the current
router query whose name appears in the pathname as `[key]` or `[...key]`. -/
def isDynamicKey (pathname key : String) : Bool :=
  strIncludes pathname ("[" ++ key ++ "]") || strIncludes pathname ("[..." ++ key ++ "]")

def extractDynamicParams (router : RouterState) : Obj :=
  router.query.filter (fun p => isDynamicKey router.pathname p.1)

/-- `extractNonSchemaParams` (source lines 139-154): the keys of the current
router query that are neither dynamic nor own-properties of the validated
data. -/
def extractNonSchemaParams (router : RouterState) (parsedData : Obj) : Obj :=
  let dynamicParams := extractDynamicParams router
  router.query.filter
    (fun p => !(Obj.hasKey dynamicParams p.1) && !(Obj.hasKey parsedData p.1))

/-- The initialization latch at the top of `getSnapshot` (source lines
162-165): `if (!this.state.isInitialized && newInitialQuery)`.  Any object
argument is truthy in JS (including `{}`); `none` models an omitted
argument. -/
def applyLatch (st : StoreState) (newInitialQuery : Option Obj) : StoreState :=
  match newInitialQuery with
  | some q => if st.isInitialized then st else { st with initialQuery := q, isInitialized := true }
  | none => st

/-- Result of a `getSnapshot` call: the returned validated value and the
store state afterwards. -/
structure SnapResult where
  value : Obj
  state : StoreState
deriving DecidableEq, Repr

/-- `getSnapshot` (source lines 160-185).  `isServer` models
`typeof window === 'undefined'`.  The outer reference-inequality test
`previousQuery !== mergedQuery` is always true because `mergedQuery` is a
freshly spread object, so only the inner deep-equality test decides. -/
def getSnapshot (schema : Schema) (isServer : Bool) (router : RouterState)
    (st : StoreState) (newInitialQuery : Option Obj) : SnapResult :=
  let st1 := applyLatch st newInitialQuery
  if isServer then
    { value := parseQuery schema st1.initialQuery, state := st1 }
  else
    let mergedQuery := Obj.merge st1.initialQuery router.query
    match st1.snapshot with
    | some s =>
      if objEq st1.previousQuery mergedQuery then
        { value := s, state := st1 }
      else
        let v := parseQuery schema mergedQuery
        { value := v, state := { st1 with previousQuery := mergedQuery, snapshot := some v } }
    | none =>
      let v := parseQuery schema mergedQuery
      { value := v, state := { st1 with previousQuery := mergedQuery, snapshot := some v } }

/-- `resetInitialization` (source lines 208-211). -/
def resetInitialization (st : StoreState) : StoreState :=
  { st with isInitialized := false, initialQuery := [] }

/-- `invalidate` (source lines 199-202): recompute the snapshot via
`getSnapshot()` (no argument) against the router state at that moment and
store it; the subscriber callbacks are then run by the caller's `notified`
flag. -/
def invalidate (schema : Schema) (isServer : Bool) (router : RouterState)
    (st : StoreState) : StoreState :=
  let r := getSnapshot schema isServer router st none
  { r.state with snapshot := some r.value }

/-- Observable outcome of a `setQueryParams` / `clearQueryParams` call:
the boolean the promise resolves with, the navigation call issued (if any),
the store state afterwards, whether subscribers were notified, and whether a
console diagnostic was emitted. -/
structure SetResult where
  resolved : Bool
  nav : Option NavCall
  state : StoreState
  notified : Bool
  logged : Bool
deriving DecidableEq, Repr

/-- `setQueryParams` (source lines 217-282).  `navResult` is the outcome of
the router's navigation promise and `routerAfter` the router state when that
promise settles (used by `invalidate`). -/
def setQueryParams (schema : Schema) (storeOpts : SetRouterQueryParamsOptions)
    (isServer : Bool) (router : RouterState) (st : StoreState)
    (newParams : Obj) (opts : SetQueryParamOptions)
    (navResult : NavResult) (routerAfter : RouterState) : SetResult :=
  if isServer then
    { resolved := false, nav := none, state := st, notified := false,
      logged := opts.logErrorsToConsole.getD false || storeOpts.logErrorsToConsole.getD false }
  else
    match schema.safeParse newParams with
    | some parsedData =>
      let dynamicParams := extractDynamicParams router
      let existingParams := extractNonSchemaParams router parsedData
      let mergedParams := Obj.merge (Obj.merge existingParams parsedData) dynamicParams
      let finalParams :=
        if opts.keepEmptyParameters.getD false || storeOpts.keepEmptyParameters.getD false then
          mergedParams
        else
          filterEmptyValues mergedParams
      let nav : NavCall :=
        { pathname := opts.pathname.getD router.pathname
          query := finalParams
          replaceMode := opts.replace.getD false || storeOpts.replace.getD false
          navOptions := pickNavOptions storeOpts opts }
      match navResult with
      | NavResult.ok success =>
        { resolved := success, nav := some nav,
          state := invalidate schema false routerAfter st, notified := true, logged := false }
      | NavResult.err =>
        { resolved := false, nav := some nav, state := st, notified := false,
          logged := opts.logErrorsToConsole.getD false || storeOpts.logErrorsToConsole.getD false }
    | none =>
      { resolved := false, nav := none, state := st, notified := false,
        logged :=
          match opts.logErrorsToConsole with
          | some b => b
          | none => storeOpts.logErrorsToConsole.getD false }

/-- The target key set of remove-mode `clearQueryParams` (source line 316):
the explicit `keys` argument if provided, else the schema's declared shape
keys, else the keys of `this.getSnapshot({})` (which also updates the store
state, returned alongside). -/
def clearTargetKeys (schema : Schema) (router : RouterState) (st : StoreState)
    (keys? : Option (List String)) : List String × StoreState :=
  match keys? with
  | some ks => (ks, st)
  | none =>
    match schema.shape with
    | some shapeKeys => (shapeKeys, st)
    | none =>
      let r := getSnapshot schema false router st (some [])
      (Obj.keys r.value, r.state)

/-- `clearQueryParams` (source lines 288-340).  Reset-to-defaults mode
delegates to `setQueryParams`; remove mode deletes the target keys from a
copy of the current router query and navigates to the reduced query. -/
def clearQueryParams (schema : Schema) (storeOpts : SetRouterQueryParamsOptions)
    (isServer : Bool) (router : RouterState) (st : StoreState)
    (keys? : Option (List String)) (opts : SetQueryParamOptions)
    (navResult : NavResult) (routerAfter : RouterState) : SetResult :=
  if opts.resetToDefaults.getD false then
    let defaultValues := parseQuery schema []
    let paramsToReset : Obj :=
      match keys? with
      | none => defaultValues
      | some ks => ks.map (fun k => (k, (Obj.lookupKey defaultValues k).getD JSVal.undef))
    setQueryParams schema storeOpts isServer router st paramsToReset
      (mergeOptions storeOpts opts) navResult routerAfter
  else if isServer then
    { resolved := false, nav := none, state := st, notified := false, logged := false }
  else
    let tk := clearTargetKeys schema router st keys?
    let keysToRemove := tk.1
    let st1 := tk.2
    let reducedQuery := router.query.filter (fun p => !(keysToRemove.contains p.1))
    let nav : NavCall :=
      { pathname := opts.pathname.getD router.pathname
        query := reducedQuery
        replaceMode := opts.replace.getD false || storeOpts.replace.getD false
        navOptions := pickNavOptions storeOpts opts }
    match navResult with
    | NavResult.ok _ =>
      { resolved := true, nav := some nav,
        state := invalidate schema false routerAfter st1, notified := true, logged := false }
    | NavResult.err =>
      { resolved := false, nav := some nav, state := st1, notified := false,
        logged := opts.logErrorsToConsole.getD false || storeOpts.logErrorsToConsole.getD false }

theorem Obj.lookupKey_eq_none_of_not_hasKey (a : Obj) (k : String)
    (h : Obj.hasKey a k = false) : Obj.lookupKey a k = none := by
  cases hl : Obj.lookupKey a k with
  | none => rfl
  | some v => simp [Obj.hasKey, hl] at h

theorem extractDynamicParams_lookup (router : RouterState) (k : String) :
    Obj.lookupKey (extractDynamicParams router) k =
      if isDynamicKey router.pathname k then Obj.lookupKey router.query k else none :=
  Obj.lookupKey_filter_keyPred (fun x => isDynamicKey router.pathname x) router.query k

theorem extractDynamicParams_hasKey (router : RouterState) (k : String) :
    Obj.hasKey (extractDynamicParams router) k =
      (isDynamicKey router.pathname k && Obj.hasKey router.query k) :=
  Obj.hasKey_filter_keyPred (fun x => isDynamicKey router.pathname x) router.query k

theorem extractNonSchemaParams_lookup (router : RouterState) (parsedData : Obj) (k : String) :
    Obj.lookupKey (extractNonSchemaParams router parsedData) k =
      if !(Obj.hasKey (extractDynamicParams router) k) && !(Obj.hasKey parsedData k) then
        Obj.lookupKey router.query k
      else none :=
  Obj.lookupKey_filter_keyPred
    (fun x => !(Obj.hasKey (extractDynamicParams router) x) && !(Obj.hasKey parsedData x))
    router.query k

/-- Pointwise description of the three-layer merge built by `setQueryParams`:
dynamic route parameters win, then the validated data, then the remaining
(foreign) router-query entries. -/
theorem mergedParams_lookup (router : RouterState) (parsedData : Obj) (k : String) :
    Obj.lookupKey
      (Obj.merge (Obj.merge (extractNonSchemaParams router parsedData) parsedData)
        (extractDynamicParams router)) k =
      if Obj.hasKey router.query k && isDynamicKey router.pathname k then
        Obj.lookupKey router.query k
      else if Obj.hasKey parsedData k then Obj.lookupKey parsedData k
      else Obj.lookupKey router.query k := by
  rw [Obj.lookupKey_merge, Obj.lookupKey_merge, extractDynamicParams_hasKey,
    extractDynamicParams_lookup, extractNonSchemaParams_lookup, extractDynamicParams_hasKey]
  by_cases hq : Obj.hasKey router.query k <;>
    by_cases hd : isDynamicKey router.pathname k <;>
      by_cases hp : Obj.hasKey parsedData k <;>
        simp [hq, hd, hp, Obj.lookupKey_eq_none_of_not_hasKey router.query k]

/-- The three-layer merge has pairwise-distinct keys whenever the router
query and the validated data do. -/
theorem mergedParams_keys_nodup (router : RouterState) (parsedData : Obj)
    (hq : (Obj.keys router.query).Nodup) (hd : (Obj.keys parsedData).Nodup) :
    (Obj.keys
      (Obj.merge (Obj.merge (extractNonSchemaParams router parsedData) parsedData)
        (extractDynamicParams router))).Nodup := by
  apply keys_merge_nodup
  · apply keys_merge_nodup
    · unfold extractNonSchemaParams
      simp only []
      exact keys_filter_nodup _ router.query hq
    · exact hd
  · unfold extractDynamicParams
    exact keys_filter_nodup _ router.query hq

/-! ## Concrete fixtures for witnesses and counterexamples -/

/-- A schema test double that accepts every mapping unchanged. -/
def idSchema : Schema := { safeParse := fun q => some q, shape := none }

/-- A schema test double that rejects every mapping. -/
def rejectSchema : Schema := { safeParse := fun _ => none, shape := none }

/-- A schema test double with two defaulted keys (`status`, `count`),
mirroring the spec's reset-to-defaults scenario. -/
def defaultsSchema : Schema :=
  { safeParse := fun q =>
      some [("status", (Obj.lookupKey q "status").getD (JSVal.str "active")),
            ("count", (Obj.lookupKey q "count").getD (JSVal.num 0))]
    shape := some ["status", "count"] }

/-- Router on the dynamic route `/posts/[id]` with one foreign parameter. -/
def postsRouter : RouterState :=
  { pathname := "/posts/[id]", query := [("id", JSVal.str "123"), ("ref", JSVal.str "home")] }

/-- Router on a static route with an empty query. -/
def plainRouter : RouterState := { pathname := "/", query := [] }

/-! ## Claim theorems -/

/-- **C1**: on a successful `setQueryParams` call the write payload handed to
the router is the three-layer merge — foreign parameters (router-query keys
that are neither dynamic nor in the validated data), then the validated new
data, then the dynamic route parameters — with the higher-priority source
winning on every key collision; the payload sent is that merge (subjected to
the separately-claimed empty-value filtering step). -/
theorem setQueryParams_write_payload_priority
    (schema : Schema) (storeOpts : SetRouterQueryParamsOptions)
    (router routerAfter : RouterState) (st : StoreState) (newParams : Obj)
    (opts : SetQueryParamOptions) (navResult : NavResult) (parsedData : Obj)
    (hparse : schema.safeParse newParams = some parsedData) :
    ((setQueryParams schema storeOpts false router st newParams opts navResult
        routerAfter).nav.map NavCall.query =
      some (if opts.keepEmptyParameters.getD false || storeOpts.keepEmptyParameters.getD false then
          Obj.merge (Obj.merge (extractNonSchemaParams router parsedData) parsedData)
            (extractDynamicParams router)
        else
          filterEmptyValues
            (Obj.merge (Obj.merge (extractNonSchemaParams router parsedData) parsedData)
              (extractDynamicParams router)))) ∧
    ∀ k : String,
      Obj.lookupKey
        (Obj.merge (Obj.merge (extractNonSchemaParams router parsedData) parsedData)
          (extractDynamicParams router)) k =
        if Obj.hasKey router.query k && isDynamicKey router.pathname k then
          Obj.lookupKey router.query k
        else if Obj.hasKey parsedData k then Obj.lookupKey parsedData k
        else Obj.lookupKey router.query k := by
  constructor
  · cases navResult <;> simp [setQueryParams, hparse]
  · exact mergedParams_lookup router parsedData

theorem setQueryParams_write_payload_priority_witness :
    Obj.lookupKey
      (Obj.merge (Obj.merge (extractNonSchemaParams postsRouter [("search", JSVal.str "test")])
        [("search", JSVal.str "test")]) (extractDynamicParams postsRouter)) "id" =
      (if Obj.hasKey postsRouter.query "id" && isDynamicKey postsRouter.pathname "id" then
        Obj.lookupKey postsRouter.query "id"
      else if Obj.hasKey [("search", JSVal.str "test")] "id" then
        Obj.lookupKey [("search", JSVal.str "test")] "id"
      else Obj.lookupKey postsRouter.query "id") :=
  (setQueryParams_write_payload_priority idSchema {} postsRouter postsRouter initialStoreState
    [("search", JSVal.str "test")] {} (NavResult.ok true) [("search", JSVal.str "test")] rfl).2 "id"

/-- **C3**: with `keepEmptyParameters` unset, the payload written to the
router is the merged payload with every empty-valued entry (undefined, null,
empty string, empty array) removed and all other entries kept unchanged;
with the flag set per-call or store-wide, the merged payload is written
unchanged. -/
theorem setQueryParams_empty_filtering
    (schema : Schema) (storeOpts : SetRouterQueryParamsOptions)
    (router routerAfter : RouterState) (st : StoreState) (newParams : Obj)
    (opts : SetQueryParamOptions) (navResult : NavResult) (parsedData : Obj)
    (hparse : schema.safeParse newParams = some parsedData)
    (hq : (Obj.keys router.query).Nodup) (hd : (Obj.keys parsedData).Nodup) :
    ((opts.keepEmptyParameters.getD false || storeOpts.keepEmptyParameters.getD false) = true →
      (setQueryParams schema storeOpts false router st newParams opts navResult
          routerAfter).nav.map NavCall.query =
        some (Obj.merge (Obj.merge (extractNonSchemaParams router parsedData) parsedData)
          (extractDynamicParams router))) ∧
    ((opts.keepEmptyParameters.getD false || storeOpts.keepEmptyParameters.getD false) = false →
      (setQueryParams schema storeOpts false router st newParams opts navResult
          routerAfter).nav.map NavCall.query =
        some (filterEmptyValues
          (Obj.merge (Obj.merge (extractNonSchemaParams router parsedData) parsedData)
            (extractDynamicParams router))) ∧
      ∀ (k : String) (v : JSVal),
        Obj.lookupKey (filterEmptyValues
          (Obj.merge (Obj.merge (extractNonSchemaParams router parsedData) parsedData)
            (extractDynamicParams router))) k = some v ↔
          (Obj.lookupKey
            (Obj.merge (Obj.merge (extractNonSchemaParams router parsedData) parsedData)
              (extractDynamicParams router)) k = some v ∧ isEmptyVal v = false)) := by
  constructor
  · intro hkeep
    cases navResult <;> simp [setQueryParams, hparse, hkeep]
  · intro hkeep
    constructor
    · cases navResult <;> simp [setQueryParams, hparse, hkeep]
    · intro k v
      have hnd := mergedParams_keys_nodup router parsedData hq hd
      rw [filterEmptyValues_lookupKey _ hnd k]
      cases hM : Obj.lookupKey
          (Obj.merge (Obj.merge (extractNonSchemaParams router parsedData) parsedData)
            (extractDynamicParams router)) k with
      | none => simp
      | some w =>
        by_cases he : isEmptyVal w = true
        · simp only [he, if_true]
          constructor
          · intro h
            exact absurd h (by simp)
          · rintro ⟨hw, hv⟩
            rw [Option.some_inj] at hw
            subst hw
            exact absurd hv (by simp [he])
        · have he' : isEmptyVal w = false := by simpa using he
          simp only [he', Bool.false_eq_true, if_false]
          constructor
          · intro h
            refine ⟨h, ?_⟩
            rw [Option.some_inj] at h
            rw [← h]
            exact he'
          · intro h
            exact h.1

theorem setQueryParams_empty_filtering_witness :
    (setQueryParams idSchema {} false plainRouter initialStoreState
      [("search", JSVal.str ""), ("filters", JSVal.arr []), ("page", JSVal.undef)] {}
      (NavResult.ok true) plainRouter).nav.map NavCall.query =
      some (filterEmptyValues
        (Obj.merge (Obj.merge (extractNonSchemaParams plainRouter
            [("search", JSVal.str ""), ("filters", JSVal.arr []), ("page", JSVal.undef)])
          [("search", JSVal.str ""), ("filters", JSVal.arr []), ("page", JSVal.undef)])
          (extractDynamicParams plainRouter))) :=
  ((setQueryParams_empty_filtering idSchema {} plainRouter plainRouter initialStoreState
    [("search", JSVal.str ""), ("filters", JSVal.arr []), ("page", JSVal.undef)] {}
    (NavResult.ok true)
    [("search", JSVal.str ""), ("filters", JSVal.arr []), ("page", JSVal.undef)]
    rfl (by decide) (by decide)).2 rfl).1

/-- **C7**: the read path `parseQuery` is total: it returns the validated
value on success, the result of validating the empty mapping (schema
defaults) when validation fails and the defaults validate, and the empty
mapping when both fail; its diagnostic fires only on failure with the
opt-in flag set. -/
theorem parseQuery_total_with_fallback (schema : Schema)
    (storeOpts : SetRouterQueryParamsOptions) (query : Obj) :
    (∀ d, schema.safeParse query = some d → parseQuery schema query = d) ∧
    (schema.safeParse query = none →
      ∀ d0, schema.safeParse [] = some d0 → parseQuery schema query = d0) ∧
    (schema.safeParse query = none → schema.safeParse [] = none →
      parseQuery schema query = []) ∧
    (parseQueryLogs storeOpts schema query = true ↔
      schema.safeParse query = none ∧ storeOpts.logErrorsToConsole.getD false = true) := by
  refine ⟨?_, ?_, ?_, ?_⟩
  · intro d hd
    simp [parseQuery, hd]
  · intro h d0 h0
    simp [parseQuery, h, h0]
  · intro h h0
    simp [parseQuery, h, h0]
  · simp [parseQueryLogs, Bool.and_eq_true, Option.isNone_iff_eq_none]

theorem parseQuery_total_with_fallback_witness :
    parseQuery idSchema [("a", JSVal.str "1")] = [("a", JSVal.str "1")] :=
  (parseQuery_total_with_fallback idSchema {} [("a", JSVal.str "1")]).1
    [("a", JSVal.str "1")] rfl

/-- `getSnapshot` only writes `initialQuery` / `isInitialized` through the
initialization latch: every branch returns them as `applyLatch` left them. -/
theorem getSnapshot_state_init_fields (schema : Schema) (isServer : Bool)
    (router : RouterState) (st : StoreState) (newInitialQuery : Option Obj) :
    (getSnapshot schema isServer router st newInitialQuery).state.initialQuery =
      (applyLatch st newInitialQuery).initialQuery ∧
    (getSnapshot schema isServer router st newInitialQuery).state.isInitialized =
      (applyLatch st newInitialQuery).isInitialized := by
  unfold getSnapshot
  cases isServer with
  | true => simp
  | false =>
    cases h : (applyLatch st newInitialQuery).snapshot with
    | some s =>
      by_cases heq : objEq (applyLatch st newInitialQuery).previousQuery
          (Obj.merge (applyLatch st newInitialQuery).initialQuery router.query) = true <;>
        simp [h, heq]
    | none => simp [h]

/-- **C2** counterexample: on pathname `/posts/[id]` with current router
query `{id: ""}`, a successful `setQueryParams({search: "test"})` under
default options issues a navigation whose query payload no longer contains
the dynamic key `id` — the empty-value filter runs after the dynamic merge
and strips it, although `id` matches a dynamic segment and is present in the
current query. -/
theorem setQueryParams_drops_empty_dynamic_param :
    isDynamicKey "/posts/[id]" "id" = true ∧
    Obj.lookupKey (RouterState.query ⟨"/posts/[id]", [("id", JSVal.str "")]⟩) "id" =
      some (JSVal.str "") ∧
    (setQueryParams idSchema {} false ⟨"/posts/[id]", [("id", JSVal.str "")]⟩
        initialStoreState [("search", JSVal.str "test")] {} (NavResult.ok true)
        ⟨"/posts/[id]", []⟩).nav.map (fun nc => Obj.lookupKey nc.query "id") =
      some none := by
  decide

/-- **C2** (amended): every key of the current router query matching a
dynamic segment of the current pathname is present, with its value
unchanged, in the payload of a successful `setQueryParams` write — provided
its current value is non-empty or `keepEmptyParameters` is set (the
empty-value filter runs after the merge and removes empty-valued dynamic
parameters). -/
theorem setQueryParams_preserves_dynamic_params
    (schema : Schema) (storeOpts : SetRouterQueryParamsOptions)
    (router routerAfter : RouterState) (st : StoreState) (newParams : Obj)
    (opts : SetQueryParamOptions) (navResult : NavResult) (parsedData : Obj)
    (hparse : schema.safeParse newParams = some parsedData)
    (hq : (Obj.keys router.query).Nodup) (hd : (Obj.keys parsedData).Nodup)
    (k : String) (v : JSVal)
    (hk : Obj.lookupKey router.query k = some v)
    (hdyn : isDynamicKey router.pathname k = true)
    (hne : isEmptyVal v = false ∨
      (opts.keepEmptyParameters.getD false || storeOpts.keepEmptyParameters.getD false) = true) :
    (setQueryParams schema storeOpts false router st newParams opts navResult
        routerAfter).nav.map (fun nc => Obj.lookupKey nc.query k) = some (some v) := by
  have hM : Obj.lookupKey
      (Obj.merge (Obj.merge (extractNonSchemaParams router parsedData) parsedData)
        (extractDynamicParams router)) k = some v := by
    rw [mergedParams_lookup]
    simp [Obj.hasKey, hk, hdyn]
  have hnd := mergedParams_keys_nodup router parsedData hq hd
  cases hkeep : (opts.keepEmptyParameters.getD false || storeOpts.keepEmptyParameters.getD false) with
  | true =>
    cases navResult <;> simp [setQueryParams, hparse, hkeep, hM]
  | false =>
    have hvne : isEmptyVal v = false := by
      rcases hne with h | h
      · exact h
      · rw [hkeep] at h
        cases h
    have hfil : Obj.lookupKey (filterEmptyValues
        (Obj.merge (Obj.merge (extractNonSchemaParams router parsedData) parsedData)
          (extractDynamicParams router))) k = some v := by
      rw [filterEmptyValues_lookupKey _ hnd k, hM]
      simp [hvne]
    cases navResult <;> simp [setQueryParams, hparse, hkeep, hfil]

theorem setQueryParams_preserves_dynamic_params_witness :
    (setQueryParams idSchema {} false postsRouter initialStoreState
        [("search", JSVal.str "test")] {} (NavResult.ok true) postsRouter).nav.map
      (fun nc => Obj.lookupKey nc.query "id") = some (some (JSVal.str "123")) :=
  setQueryParams_preserves_dynamic_params idSchema {} postsRouter postsRouter
    initialStoreState [("search", JSVal.str "test")] {} (NavResult.ok true)
    [("search", JSVal.str "test")] rfl (by decide) (by decide) "id" (JSVal.str "123")
    (by decide) (by decide) (Or.inl (by decide))

/-- **C4**: on a client-side read, `getSnapshot` merges the stored initial
query with the current router query (router wins on every key collision),
returns the cached snapshot unchanged when one exists and the merge is
deep-equal to `previousQuery`, and otherwise validates the merge, replacing
both the cache and `previousQuery`. -/
theorem getSnapshot_client_merge_and_cache (schema : Schema) (router : RouterState)
    (st : StoreState) (newInitialQuery : Option Obj) :
    (∀ k, Obj.lookupKey
        (Obj.merge (applyLatch st newInitialQuery).initialQuery router.query) k =
      match Obj.lookupKey router.query k with
      | some v => some v
      | none => Obj.lookupKey (applyLatch st newInitialQuery).initialQuery k) ∧
    (∀ s, (applyLatch st newInitialQuery).snapshot = some s →
      objEq (applyLatch st newInitialQuery).previousQuery
        (Obj.merge (applyLatch st newInitialQuery).initialQuery router.query) = true →
      getSnapshot schema false router st newInitialQuery =
        { value := s, state := applyLatch st newInitialQuery }) ∧
    (((applyLatch st newInitialQuery).snapshot = none ∨
      objEq (applyLatch st newInitialQuery).previousQuery
        (Obj.merge (applyLatch st newInitialQuery).initialQuery router.query) = false) →
      getSnapshot schema false router st newInitialQuery =
        { value := parseQuery schema
            (Obj.merge (applyLatch st newInitialQuery).initialQuery router.query)
          state := { applyLatch st newInitialQuery with
            previousQuery :=
              Obj.merge (applyLatch st newInitialQuery).initialQuery router.query
            snapshot := some (parseQuery schema
              (Obj.merge (applyLatch st newInitialQuery).initialQuery router.query)) } }) := by
  refine ⟨?_, ?_, ?_⟩
  · intro k
    rw [Obj.lookupKey_merge]
    cases hr : Obj.lookupKey router.query k with
    | some v => simp [Obj.hasKey, hr]
    | none => simp [Obj.hasKey, hr]
  · intro s hs heq
    simp [getSnapshot, hs, heq]
  · intro h
    rcases h with hnone | hne
    · simp [getSnapshot, hnone]
    · cases hs : (applyLatch st newInitialQuery).snapshot with
      | none => simp [getSnapshot, hs]
      | some s => simp [getSnapshot, hs, hne]

theorem getSnapshot_client_merge_and_cache_witness :
    getSnapshot idSchema false postsRouter initialStoreState none =
      { value := parseQuery idSchema
          (Obj.merge (applyLatch initialStoreState none).initialQuery postsRouter.query)
        state := { applyLatch initialStoreState none with
          previousQuery :=
            Obj.merge (applyLatch initialStoreState none).initialQuery postsRouter.query
          snapshot := some (parseQuery idSchema
            (Obj.merge (applyLatch initialStoreState none).initialQuery postsRouter.query)) } } :=
  (getSnapshot_client_merge_and_cache idSchema postsRouter initialStoreState none).2.2
    (Or.inl rfl)

/-- **C5** counterexample: a first `getSnapshot` call that passes an *empty*
initial query on an uninitialized store already latches (any provided object
is truthy in JS), so a later call passing a non-empty initial query is
ignored — under the claim the empty call would not latch and the non-empty
one would, leaving `[("a","1")]` stored. -/
theorem getSnapshot_empty_initialQuery_latches :
    (getSnapshot idSchema false plainRouter initialStoreState (some [])).state.isInitialized
      = true ∧
    (getSnapshot idSchema false plainRouter
        (getSnapshot idSchema false plainRouter initialStoreState (some [])).state
        (some [("a", JSVal.str "1")])).state.initialQuery = [] := by
  decide

/-- **C5** (amended): `getSnapshot` latches its initial-query argument as the
bootstrap value whenever the argument is provided (empty or not — any object
is truthy) and the store is uninitialized; once initialized, every later
call leaves the stored initial query and the flag unchanged, until
`resetInitialization` returns the store to uninitialized with an empty
initial query. -/
theorem getSnapshot_initialization_latch (schema : Schema) (isServer : Bool)
    (router : RouterState) (st : StoreState) :
    (st.isInitialized = false → ∀ q : Obj,
      (getSnapshot schema isServer router st (some q)).state.initialQuery = q ∧
      (getSnapshot schema isServer router st (some q)).state.isInitialized = true) ∧
    (st.isInitialized = false →
      (getSnapshot schema isServer router st none).state.initialQuery = st.initialQuery ∧
      (getSnapshot schema isServer router st none).state.isInitialized = false) ∧
    (st.isInitialized = true → ∀ newInitialQuery : Option Obj,
      (getSnapshot schema isServer router st newInitialQuery).state.initialQuery =
        st.initialQuery ∧
      (getSnapshot schema isServer router st newInitialQuery).state.isInitialized = true) ∧
    ((resetInitialization st).isInitialized = false ∧
      (resetInitialization st).initialQuery = []) := by
  refine ⟨?_, ?_, ?_, rfl, rfl⟩
  · intro hinit q
    have h := getSnapshot_state_init_fields schema isServer router st (some q)
    rw [h.1, h.2]
    simp [applyLatch, hinit]
  · intro hinit
    have h := getSnapshot_state_init_fields schema isServer router st none
    rw [h.1, h.2]
    simp [applyLatch, hinit]
  · intro hinit newInitialQuery
    have h := getSnapshot_state_init_fields schema isServer router st newInitialQuery
    rw [h.1, h.2]
    cases newInitialQuery <;> simp [applyLatch, hinit]

theorem getSnapshot_initialization_latch_witness :
    (getSnapshot idSchema false plainRouter initialStoreState
        (some [("a", JSVal.str "1")])).state.initialQuery = [("a", JSVal.str "1")] ∧
    (getSnapshot idSchema false plainRouter initialStoreState
        (some [("a", JSVal.str "1")])).state.isInitialized = true :=
  (getSnapshot_initialization_latch idSchema false plainRouter initialStoreState).1
    rfl [("a", JSVal.str "1")]

/-- **C6**: a client-side `setQueryParams` call whose new parameters fail
schema validation resolves `false`, issues no navigation, leaves the store
state untouched, notifies no subscriber, and emits a diagnostic exactly when
the opt-in flag (per-call, else store-wide) is set. -/
theorem setQueryParams_validation_failure_no_effects
    (schema : Schema) (storeOpts : SetRouterQueryParamsOptions)
    (router routerAfter : RouterState) (st : StoreState) (newParams : Obj)
    (opts : SetQueryParamOptions) (navResult : NavResult)
    (hfail : schema.safeParse newParams = none) :
    setQueryParams schema storeOpts false router st newParams opts navResult routerAfter =
      { resolved := false, nav := none, state := st, notified := false,
        logged :=
          match opts.logErrorsToConsole with
          | some b => b
          | none => storeOpts.logErrorsToConsole.getD false } := by
  simp [setQueryParams, hfail]

theorem setQueryParams_validation_failure_no_effects_witness :
    setQueryParams rejectSchema {} false plainRouter initialStoreState
        [("a", JSVal.str "1")] {} (NavResult.ok true) plainRouter =
      { resolved := false, nav := none, state := initialStoreState, notified := false,
        logged := false } :=
  setQueryParams_validation_failure_no_effects rejectSchema {} plainRouter plainRouter
    initialStoreState [("a", JSVal.str "1")] {} (NavResult.ok true) rfl

/-- Looking up a key of the payload built by mapping keys to values is the
mapped value (first binding wins). -/
theorem lookupKey_map_self (f : String → JSVal) (ks : List String) (k : String)
    (hk : k ∈ ks) :
    Obj.lookupKey (ks.map (fun x => (x, f x))) k = some (f k) := by
  induction ks with
  | nil => cases hk
  | cons a rest ih =>
    by_cases ha : a = k
    · subst ha
      simp [Obj.lookupKey]
    · rcases List.mem_cons.mp hk with rfl | hmem
      · exact absurd rfl ha
      · simp [Obj.lookupKey, ha, ih hmem]

/-- The key list of a payload built by mapping keys to values is that key
list. -/
theorem keys_map_self (f : String → JSVal) (ks : List String) :
    Obj.keys (ks.map (fun x => (x, f x))) = ks := by
  induction ks with
  | nil => rfl
  | cons a rest ih =>
    simp only [Obj.keys, List.map_cons] at ih ⊢
    rw [ih]

/-- If a key survives in the merged payload and is non-empty (or the filter
is disabled), a successful client `setQueryParams` writes it with that
value. -/
theorem setQueryParams_nav_lookup_of_merged (schema : Schema)
    (storeOpts : SetRouterQueryParamsOptions) (router routerAfter : RouterState)
    (st : StoreState) (newParams : Obj) (opts : SetQueryParamOptions)
    (navResult : NavResult) (parsedData : Obj)
    (hparse : schema.safeParse newParams = some parsedData)
    (hq : (Obj.keys router.query).Nodup) (hd : (Obj.keys parsedData).Nodup)
    (k : String) (v : JSVal)
    (hM : Obj.lookupKey
      (Obj.merge (Obj.merge (extractNonSchemaParams router parsedData) parsedData)
        (extractDynamicParams router)) k = some v)
    (hne : isEmptyVal v = false ∨
      (opts.keepEmptyParameters.getD false || storeOpts.keepEmptyParameters.getD false) = true) :
    (setQueryParams schema storeOpts false router st newParams opts navResult
        routerAfter).nav.map (fun nc => Obj.lookupKey nc.query k) = some (some v) := by
  have hnd := mergedParams_keys_nodup router parsedData hq hd
  cases hkeep : (opts.keepEmptyParameters.getD false || storeOpts.keepEmptyParameters.getD false) with
  | true =>
    cases navResult <;> simp [setQueryParams, hparse, hkeep, hM]
  | false =>
    have hvne : isEmptyVal v = false := by
      rcases hne with h | h
      · exact h
      · rw [hkeep] at h
        cases h
    have hfil : Obj.lookupKey (filterEmptyValues
        (Obj.merge (Obj.merge (extractNonSchemaParams router parsedData) parsedData)
          (extractDynamicParams router))) k = some v := by
      rw [filterEmptyValues_lookupKey _ hnd k, hM]
      simp [hvne]
    cases navResult <;> simp [setQueryParams, hparse, hkeep, hfil]

/-- Router used by the remove-mode clear scenario: a dynamic segment, a
schema key, and a foreign parameter. -/
def clearRouter : RouterState :=
  { pathname := "/p/[id]"
    query := [("id", JSVal.str "7"), ("status", JSVal.str "x"), ("extra", JSVal.str "keep")] }

/-- Router used by the reset-to-defaults scenario from the spec. -/
def resetRouter : RouterState :=
  { pathname := "/"
    query := [("status", JSVal.str "inactive"), ("count", JSVal.str "5"),
              ("extra", JSVal.str "keep")] }

/-- **C8**: remove-mode `clearQueryParams` resolves `false` outside the
browser; on the client its target key set is the explicit `keys` argument,
else the schema shape keys, else the keys of the current snapshot, exactly
those keys are deleted from a copy of the current router query and the
reduced query is navigated to, so every other key (dynamic segments
included) survives with its value unchanged. -/
theorem clearQueryParams_remove_mode (schema : Schema)
    (storeOpts : SetRouterQueryParamsOptions) (router routerAfter : RouterState)
    (st : StoreState) (keys? : Option (List String)) (opts : SetQueryParamOptions)
    (navResult : NavResult)
    (hmode : opts.resetToDefaults.getD false = false) :
    ((clearQueryParams schema storeOpts true router st keys? opts navResult
        routerAfter).resolved = false ∧
      (clearQueryParams schema storeOpts true router st keys? opts navResult
        routerAfter).nav = none) ∧
    (∀ ks, keys? = some ks → (clearTargetKeys schema router st keys?).1 = ks) ∧
    (∀ shapeKeys, keys? = none → schema.shape = some shapeKeys →
      (clearTargetKeys schema router st keys?).1 = shapeKeys) ∧
    (keys? = none → schema.shape = none →
      (clearTargetKeys schema router st keys?).1 =
        Obj.keys (getSnapshot schema false router st (some [])).value) ∧
    ((clearQueryParams schema storeOpts false router st keys? opts navResult
        routerAfter).nav.map NavCall.query =
      some (router.query.filter
        (fun p => !((clearTargetKeys schema router st keys?).1.contains p.1)))) ∧
    (∀ k, (clearTargetKeys schema router st keys?).1.contains k = false →
      Obj.lookupKey (router.query.filter
        (fun p => !((clearTargetKeys schema router st keys?).1.contains p.1))) k =
        Obj.lookupKey router.query k) ∧
    (∀ k, (clearTargetKeys schema router st keys?).1.contains k = true →
      Obj.lookupKey (router.query.filter
        (fun p => !((clearTargetKeys schema router st keys?).1.contains p.1))) k =
        none) := by
  refine ⟨⟨?_, ?_⟩, ?_, ?_, ?_, ?_, ?_, ?_⟩
  · simp [clearQueryParams, hmode]
  · simp [clearQueryParams, hmode]
  · intro ks hks
    simp [clearTargetKeys, hks]
  · intro shapeKeys hks hshape
    simp [clearTargetKeys, hks, hshape]
  · intro hks hshape
    simp [clearTargetKeys, hks, hshape]
  · cases navResult <;> simp [clearQueryParams, hmode]
  · intro k hc
    have h := Obj.lookupKey_filter_keyPred
      (fun x => !((clearTargetKeys schema router st keys?).1.contains x)) router.query k
    rw [h, hc]
    simp
  · intro k hc
    have h := Obj.lookupKey_filter_keyPred
      (fun x => !((clearTargetKeys schema router st keys?).1.contains x)) router.query k
    rw [h, hc]
    simp

theorem clearQueryParams_remove_mode_witness :
    (clearQueryParams defaultsSchema {} false clearRouter initialStoreState none {}
        (NavResult.ok true) clearRouter).nav.map NavCall.query =
      some (clearRouter.query.filter
        (fun p => !((clearTargetKeys defaultsSchema clearRouter initialStoreState
          none).1.contains p.1))) :=
  (clearQueryParams_remove_mode defaultsSchema {} clearRouter clearRouter initialStoreState
    none {} (NavResult.ok true) rfl).2.2.2.2.1

/-- **C9**: reset-to-defaults `clearQueryParams` validates the empty mapping
for schema defaults, keeps exactly the requested keys when `keys` is given
(each mapped to its default, `undefined` when the defaults lack it), and
delegates to `setQueryParams` with that payload under the merged options, so
the standard merge/filter rules apply — in particular non-empty foreign
router parameters survive the reset. -/
theorem clearQueryParams_reset_to_defaults (schema : Schema)
    (storeOpts : SetRouterQueryParamsOptions) (isServer : Bool)
    (router routerAfter : RouterState) (st : StoreState)
    (keys? : Option (List String)) (opts : SetQueryParamOptions)
    (navResult : NavResult)
    (hmode : opts.resetToDefaults.getD false = true) :
    (clearQueryParams schema storeOpts isServer router st keys? opts navResult routerAfter =
      setQueryParams schema storeOpts isServer router st
        (match keys? with
         | none => parseQuery schema []
         | some ks =>
            ks.map (fun k => (k, (Obj.lookupKey (parseQuery schema []) k).getD JSVal.undef)))
        (mergeOptions storeOpts opts) navResult routerAfter) ∧
    (∀ ks, keys? = some ks →
      Obj.keys (ks.map (fun k => (k, (Obj.lookupKey (parseQuery schema []) k).getD
        JSVal.undef))) = ks ∧
      ∀ k, k ∈ ks →
        Obj.lookupKey (ks.map (fun x => (x, (Obj.lookupKey (parseQuery schema []) x).getD
          JSVal.undef))) k = some ((Obj.lookupKey (parseQuery schema []) k).getD JSVal.undef)) ∧
    (∀ parsedData : Obj,
      schema.safeParse (match keys? with
         | none => parseQuery schema []
         | some ks =>
            ks.map (fun k => (k, (Obj.lookupKey (parseQuery schema []) k).getD JSVal.undef)))
        = some parsedData →
      (Obj.keys router.query).Nodup → (Obj.keys parsedData).Nodup →
      ∀ (k : String) (v : JSVal), Obj.lookupKey router.query k = some v →
        isDynamicKey router.pathname k = false →
        Obj.hasKey parsedData k = false →
        (isEmptyVal v = false ∨
          ((mergeOptions storeOpts opts).keepEmptyParameters.getD false ||
            storeOpts.keepEmptyParameters.getD false) = true) →
        (clearQueryParams schema storeOpts false router st keys? opts navResult
            routerAfter).nav.map (fun nc => Obj.lookupKey nc.query k) = some (some v)) := by
  refine ⟨?_, ?_, ?_⟩
  · cases keys? <;> simp [clearQueryParams, hmode]
  · intro ks hks
    constructor
    · exact keys_map_self
        (fun x => (Obj.lookupKey (parseQuery schema []) x).getD JSVal.undef) ks
    · intro k hk
      exact lookupKey_map_self
        (fun x => (Obj.lookupKey (parseQuery schema []) x).getD JSVal.undef) ks k hk
  · intro parsedData hparse hq hd k v hk hdyn hp hne
    have hM : Obj.lookupKey
        (Obj.merge (Obj.merge (extractNonSchemaParams router parsedData) parsedData)
          (extractDynamicParams router)) k = some v := by
      rw [mergedParams_lookup]
      simp [hdyn, hp, hk]
    cases keys? with
    | none =>
      have hdeleg :
          clearQueryParams schema storeOpts false router st none opts navResult routerAfter =
          setQueryParams schema storeOpts false router st (parseQuery schema [])
            (mergeOptions storeOpts opts) navResult routerAfter := by
        simp [clearQueryParams, hmode]
      rw [hdeleg]
      exact setQueryParams_nav_lookup_of_merged schema storeOpts router routerAfter st
        (parseQuery schema []) (mergeOptions storeOpts opts) navResult parsedData hparse
        hq hd k v hM hne
    | some ks =>
      have hdeleg :
          clearQueryParams schema storeOpts false router st (some ks) opts navResult
            routerAfter =
          setQueryParams schema storeOpts false router st
            (ks.map (fun x => (x, (Obj.lookupKey (parseQuery schema []) x).getD JSVal.undef)))
            (mergeOptions storeOpts opts) navResult routerAfter := by
        simp [clearQueryParams, hmode]
      rw [hdeleg]
      exact setQueryParams_nav_lookup_of_merged schema storeOpts router routerAfter st
        (ks.map (fun x => (x, (Obj.lookupKey (parseQuery schema []) x).getD JSVal.undef)))
        (mergeOptions storeOpts opts) navResult parsedData hparse hq hd k v hM hne

theorem clearQueryParams_reset_to_defaults_witness :
    clearQueryParams defaultsSchema {} false resetRouter initialStoreState none
        { resetToDefaults := some true } (NavResult.ok true) resetRouter =
      setQueryParams defaultsSchema {} false resetRouter initialStoreState
        (parseQuery defaultsSchema [])
        (mergeOptions {} { resetToDefaults := some true }) (NavResult.ok true) resetRouter :=
  (clearQueryParams_reset_to_defaults defaultsSchema {} false resetRouter resetRouter
    initialStoreState none { resetToDefaults := some true } (NavResult.ok true) rfl).1

/-- **C10**: remove-mode `clearQueryParams` resolves `true` whenever the
navigation promise fulfills, regardless of the boolean it fulfilled with,
while `setQueryParams` resolves with exactly that boolean; when the
navigation promise rejects, both resolve `false`. -/
theorem navigation_promise_resolution (schema : Schema)
    (storeOpts : SetRouterQueryParamsOptions) (router routerAfter : RouterState)
    (st : StoreState) (newParams : Obj) (keys? : Option (List String))
    (opts : SetQueryParamOptions) (parsedData : Obj)
    (hparse : schema.safeParse newParams = some parsedData)
    (hmode : opts.resetToDefaults.getD false = false) :
    (∀ b, (clearQueryParams schema storeOpts false router st keys? opts (NavResult.ok b)
      routerAfter).resolved = true) ∧
    (∀ b, (setQueryParams schema storeOpts false router st newParams opts (NavResult.ok b)
      routerAfter).resolved = b) ∧
    ((clearQueryParams schema storeOpts false router st keys? opts NavResult.err
      routerAfter).resolved = false) ∧
    ((setQueryParams schema storeOpts false router st newParams opts NavResult.err
      routerAfter).resolved = false) := by
  refine ⟨?_, ?_, ?_, ?_⟩
  · intro b
    simp [clearQueryParams, hmode]
  · intro b
    simp [setQueryParams, hparse]
  · simp [clearQueryParams, hmode]
  · simp [setQueryParams, hparse]

theorem navigation_promise_resolution_witness :
    (setQueryParams idSchema {} false plainRouter initialStoreState
        [("a", JSVal.str "1")] {} (NavResult.ok false) plainRouter).resolved = false :=
  (navigation_promise_resolution idSchema {} plainRouter plainRouter initialStoreState
    [("a", JSVal.str "1")] none {} [("a", JSVal.str "1")] rfl rfl).2.1 false

end QPStore
